import Mathlib

/-!
Verification development for the MindBridge privacy-preserving
verification and aggregation engine
(`src/MindBridge_Privacy_Blockchain_Architecture.md`).

The development shallowly embeds:
* the two circom circuits (`WellnessMilestoneProof`,
  `PeerSupportVerification` / `SupportQualityCalculator`),
* the `AdvancedZKProofService` TypeScript class (proof generation,
  verification, batch dispatch, fingerprint cache),
* the `PrivacyPreservingAnalytics` TypeScript class (Paillier
  encryption, homomorphic aggregation, Laplace release).

External libraries (circomlib's `Poseidon`, snarkjs's `groth16`,
`paillier-bigint`, `Math.log` / `Math.sqrt` / `Math.random`) are
modelled as explicit parameters or abstract scheme records; everything
that is source code of the repository is translated directly.
-/

namespace MindBridge

/-! ## Circom circuit model

Field-element signals that the application feeds from bounded
JavaScript numbers are modelled as `Nat`; the circomlib comparators are
embedded by their bit-decomposition formulas, which agree with the
mathematical comparison exactly on the declared 8-bit input range (the
spec's Witness Builder contract rejects out-of-range values before
proving). -/

/-- circomlib `LessThan(n)`: the output is `1 - bit n` of
`in[0] + 2^n - in[1]`, which equals `1` iff `in[0] < in[1]` whenever
both inputs are below `2^n`. -/
def LessThan (n x y : Nat) : Nat :=
  1 - (x + 2 ^ n - y) / 2 ^ n % 2

/-- circomlib `GreaterEqThan(n)`: implemented as `LessThan(n)` applied
to `(in[1], in[0] + 1)`. -/
def GreaterEqThan (n a b : Nat) : Nat :=
  LessThan n b (a + 1)

/-- circomlib `AND()`: product of two boolean signals. -/
def circomAND (a b : Nat) : Nat := a * b

/-- On the valid 8-bit-style range the comparator decides `b ≤ a`. -/
theorem GreaterEqThan_eq (n a b : Nat) (ha : a < 2 ^ n) (hb : b < 2 ^ n) :
    GreaterEqThan n a b = if b ≤ a then 1 else 0 := by
  have hpos : 0 < 2 ^ n := pow_pos (by norm_num) n
  unfold GreaterEqThan LessThan
  rcases le_or_lt b a with h | h
  · have hv : b + 2 ^ n - (a + 1) < 2 ^ n := by omega
    rw [Nat.div_eq_of_lt hv]
    simp [h]
  · have hv : b + 2 ^ n - (a + 1) = 2 ^ n + (b - a - 1) := by omega
    have hr : b - a - 1 < 2 ^ n := by omega
    rw [hv, Nat.add_comm (2 ^ n), Nat.add_div_right _ hpos,
      Nat.div_eq_of_lt hr]
    simp [Nat.not_le.mpr h]

/-- Private signals of the `WellnessMilestoneProof` circuit, in the
order declared in the source (`mentalHealthScore`, `sessionCount`,
`consistencyDays`, `moodImprovementScore`, `userPrivateKey`,
`sessionTimestamps[30]`, `dailyMoodScores[30]`). -/
structure WellnessPrivateInputs where
  mentalHealthScore : Nat
  sessionCount : Nat
  consistencyDays : Nat
  moodImprovementScore : Nat
  userPrivateKey : Nat
  sessionTimestamps : List Nat
  dailyMoodScores : List Nat
deriving DecidableEq, Repr

/-- Public signals of the `WellnessMilestoneProof` circuit. -/
structure WellnessPublicInputs where
  minWellnessThreshold : Nat
  minSessionRequirement : Nat
  minConsistencyDays : Nat
  minImprovementPercent : Nat
  milestoneType : Nat
  verificationTimestamp : Nat
deriving DecidableEq, Repr

/-- The `milestoneAchieved` output of `WellnessMilestoneProof`:
four `GreaterEqThan(8)` comparators combined by the three `AND()`
components (`milestoneAnd1`, `milestoneAnd2`, `finalAnd`). -/
def milestoneAchieved (priv : WellnessPrivateInputs)
    (pub : WellnessPublicInputs) : Nat :=
  let wellnessCheck := GreaterEqThan 8 priv.mentalHealthScore pub.minWellnessThreshold
  let sessionCheck := GreaterEqThan 8 priv.sessionCount pub.minSessionRequirement
  let consistencyCheck := GreaterEqThan 8 priv.consistencyDays pub.minConsistencyDays
  let improvementCheck := GreaterEqThan 8 priv.moodImprovementScore pub.minImprovementPercent
  let milestoneAnd1 := circomAND wellnessCheck sessionCheck
  let milestoneAnd2 := circomAND consistencyCheck improvementCheck
  circomAND milestoneAnd1 milestoneAnd2

/-- Helper template `Average(n)`: sum of the inputs divided by `n`
(circom `var` division, modelled exactly over `ℚ`). -/
def Average (n : Nat) (inputs : List ℚ) : ℚ :=
  inputs.sum / (n : ℚ)

/-- Helper template `FrequencyAnalyzer(n)`: sum of consecutive gaps
`in[i] - in[i-1]` divided by `n - 1`. -/
def FrequencyAnalyzer (n : Nat) (inputs : List ℚ) : ℚ :=
  (List.zipWith (fun prev next => next - prev) inputs inputs.tail).sum
    / ((n : ℚ) - 1)

/-- Helper template `TrendAnalysis(n)`: linear-regression slope
`(n·ΣiY - Σi·ΣY) / (n·Σi² - (Σi)²)` over the mood series (the
`timeData` input is declared but unused by the slope computation in
the source). -/
def TrendAnalysis (n : Nat) (moodData : List ℚ) : ℚ :=
  let sumX : ℚ := ((List.range n).map (fun (i : Nat) => (i : ℚ))).sum
  let sumY : ℚ := ((List.range n).map (fun (i : Nat) => moodData.getD i 0)).sum
  let sumXY : ℚ := ((List.range n).map (fun (i : Nat) => (i : ℚ) * moodData.getD i 0)).sum
  let sumXX : ℚ := ((List.range n).map (fun (i : Nat) => (i : ℚ) * (i : ℚ))).sum
  (n * sumXY - sumX * sumY) / (n * sumXX - sumX * sumX)

/-- Output signals of `WellnessMilestoneProof`. -/
structure WellnessOutputs where
  milestoneAchieved : Nat
  achievementHash : ℚ
  consistencyProof : ℚ
  improvementProof : ℚ
  privacyScore : Nat

/-- The full `WellnessMilestoneProof` template. The circomlib
`Poseidon` sponge hash is an external primitive, passed in as an
abstract function; the hasher input vectors follow the source order
exactly. -/
def WellnessMilestoneProofCircuit (poseidon : List ℚ → ℚ)
    (priv : WellnessPrivateInputs) (pub : WellnessPublicInputs) :
    WellnessOutputs :=
  let sessionFrequency :=
    FrequencyAnalyzer 30 (priv.sessionTimestamps.map (fun t => (t : ℚ)))
  let trendAnalyzer :=
    TrendAnalysis 30 (priv.dailyMoodScores.map (fun m => (m : ℚ)))
  { milestoneAchieved := milestoneAchieved priv pub
    achievementHash := poseidon
      [(priv.mentalHealthScore : ℚ), (priv.sessionCount : ℚ),
       (priv.consistencyDays : ℚ), (priv.moodImprovementScore : ℚ),
       (pub.milestoneType : ℚ), (pub.verificationTimestamp : ℚ),
       (priv.userPrivateKey : ℚ)]
    consistencyProof := poseidon
      [sessionFrequency, (priv.consistencyDays : ℚ), (priv.userPrivateKey : ℚ)]
    improvementProof := poseidon
      [trendAnalyzer, (priv.moodImprovementScore : ℚ), (priv.userPrivateKey : ℚ)]
    privacyScore := pub.milestoneType % 6 }

/-! ## SupportQualityCalculator (peer-support circuit) -/

/-- The accumulation loop of `SupportQualityCalculator(n)`: running
`(totalScore, validInteractions)` pair, adding an entry to both only
when it is strictly positive. -/
def supportQualityLoop (inputs : List Int) : Int × Nat :=
  inputs.foldl
    (fun acc x => if x > 0 then (acc.1 + x, acc.2 + 1) else acc)
    (0, 0)

/-- `SupportQualityCalculator(n)`: `qualityScore` is
`totalScore / validInteractions`. When no entry is strictly positive,
`validInteractions = 0` and the circom witness computation divides by
zero, which aborts witness generation; that failure is modelled as
`none`. -/
def SupportQualityCalculator (inputs : List Int) : Option ℚ :=
  let acc := supportQualityLoop inputs
  if acc.2 = 0 then none
  else some ((acc.1 : ℚ) / (acc.2 : ℚ))

theorem supportQualityLoop_eq (inputs : List Int) :
    supportQualityLoop inputs =
      ((inputs.filter (fun x => 0 < x)).sum,
       (inputs.filter (fun x => 0 < x)).length) := by
  suffices h : ∀ (l : List Int) (a : Int) (k : Nat),
      l.foldl (fun acc x => if x > 0 then (acc.1 + x, acc.2 + 1) else acc) (a, k) =
        (a + (l.filter (fun x => 0 < x)).sum,
         k + (l.filter (fun x => 0 < x)).length) by
    simpa [supportQualityLoop] using h inputs 0 0
  intro l
  induction l with
  | nil => intro a k; simp
  | cons x xs ih =>
    intro a k
    rw [List.foldl_cons]
    by_cases hx : 0 < x
    · rw [if_pos hx, ih]
      have hfc : List.filter (fun y => decide (0 < y)) (x :: xs) =
          x :: List.filter (fun y => decide (0 < y)) xs := by
        simp [List.filter_cons, hx]
      rw [hfc]
      simp only [List.sum_cons, List.length_cons, Prod.mk.injEq]
      exact ⟨by ring, by omega⟩
    · rw [if_neg hx, ih]
      simp [List.filter_cons, hx]

/-! ## AdvancedZKProofService

Group elements and verification keys are opaque tokens (`Nat`);
public signals — field-element decimal strings on the wire — are
modelled as `Nat` values, with `publicSignals[0] === "1"` becoming a
comparison with `some 1` (an out-of-range index is JavaScript
`undefined`, never equal to `"1"`, hence `Option`). The external
snarkjs `groth16` functions are an abstract backend record; the
SHA-256 request fingerprint of `generateCacheKey` is modelled by the
fingerprinted data itself (`circuitName`, private inputs, public
inputs). -/

/-- A loaded circuit: compiled wasm plus proving key, as stored in
`this.circuits`. -/
structure Circuit where
  wasm : Nat
  zkey : Nat
deriving DecidableEq, Repr

/-- The groth16 proof object (`pi_a`, `pi_b`, `pi_c`). -/
structure Groth16Proof where
  pi_a : Nat
  pi_b : Nat
  pi_c : Nat
deriving DecidableEq, Repr

/-- Private inputs passed to `generatePeerSupportProof`. -/
structure PeerSupportPrivateInputs where
  supporterExperience : Nat
  supporterWellnessScore : Nat
  supportHistory : List Int
  supporterPrivateKey : Nat
deriving DecidableEq, Repr

/-- Public requirements passed to `generatePeerSupportProof`. -/
structure PeerSupportRequirements where
  minExperienceRequired : Nat
  minWellnessForSupport : Nat
  supportQualityThreshold : Nat
deriving DecidableEq, Repr

/-- The circuit-input objects assembled by the two generation
functions before calling `groth16.fullProve`. -/
inductive CircuitInputs where
  | wellness (priv : WellnessPrivateInputs) (pub : WellnessPublicInputs)
  | peer (priv : PeerSupportPrivateInputs) (req : PeerSupportRequirements)
deriving DecidableEq

/-- The external snarkjs groth16 backend. `fullProve` may fail
(witness-generation or proving error); `verify` may either return a
boolean or throw (both behaviours exist in the library and both are
caught by the service). -/
structure Groth16Backend where
  fullProve : CircuitInputs → Circuit → Except String (Groth16Proof × List Nat)
  verify : Nat → List Nat → Groth16Proof → Except String Bool

/-- The `WellnessZKProof` result object. `milestoneAchieved` is
`publicSignals[0] === "1"`; the hash/score fields read signal slots
that may be absent (`Option`). -/
structure WellnessZKProof where
  proof : Groth16Proof
  publicSignals : List Nat
  milestoneAchieved : Bool
  achievementHash : Option Nat
  consistencyProof : Option Nat
  improvementProof : Option Nat
  privacyScore : Option Nat
  isValid : Bool
  timestamp : Nat
deriving DecidableEq, Repr

/-- The `PeerSupportZKProof` result object. -/
structure PeerSupportZKProof where
  proof : Groth16Proof
  publicSignals : List Nat
  canProvideSupport : Bool
  supportQualityScore : Option Nat
  anonymousCredential : Option Nat
  isValid : Bool
  timestamp : Nat
deriving DecidableEq, Repr

/-- Cache keys: the fingerprinted request data in place of its SHA-256
digest (`generateCacheKey` hashes exactly this triple). -/
structure WellnessCacheKey where
  circuitName : String
  privateInputs : WellnessPrivateInputs
  publicInputs : WellnessPublicInputs
deriving DecidableEq

/-- Service state: the `circuits` and `verificationKeys` maps plus the
proof cache (association lists standing for `Map`/`ProofCache`). -/
structure AdvancedZKProofService where
  circuits : List (String × Circuit)
  verificationKeys : List (String × Nat)
  proofCache : List (WellnessCacheKey × WellnessZKProof)

/-- The body of `verifyProof`'s `try` block: look up the verification
key, throwing when it is missing, then call `groth16.verify` (which
may itself throw). -/
def verifyProofInner (B : Groth16Backend) (svc : AdvancedZKProofService)
    (circuitName : String) (proof : Groth16Proof)
    (publicSignals : List Nat) : Except String Bool :=
  match svc.verificationKeys.lookup circuitName with
  | none => Except.error ("Verification key not found for circuit: " ++ circuitName)
  | some vKey => B.verify vKey publicSignals proof

/-- `verifyProof(circuitName, proof, publicSignals)`: the `catch`
clause converts every thrown error — including the missing-key error —
into a `false` return. -/
def verifyProof (B : Groth16Backend) (svc : AdvancedZKProofService)
    (circuitName : String) (proof : Groth16Proof)
    (publicSignals : List Nat) : Bool :=
  match verifyProofInner B svc circuitName proof publicSignals with
  | Except.ok b => b
  | Except.error _ => false

/-- The `try` block of `generateWellnessMilestoneProof`: assemble the
circuit inputs, prove, self-verify, and build the result object; the
generated proof is rejected with `"Generated proof is invalid"` when
self-verification fails. Reading `circuit.wasm` off a missing map
entry is a thrown `TypeError`, also landing in the `catch`. -/
def generateWellnessInner (B : Groth16Backend)
    (svc : AdvancedZKProofService) (now : Nat)
    (privateInputs : WellnessPrivateInputs)
    (publicInputs : WellnessPublicInputs) : Except String WellnessZKProof :=
  match svc.circuits.lookup "wellness_milestone" with
  | none => Except.error "Cannot read properties of undefined"
  | some circuit =>
    match B.fullProve (CircuitInputs.wellness privateInputs publicInputs) circuit with
    | Except.error e => Except.error e
    | Except.ok (proof, publicSignals) =>
      let isValid := verifyProof B svc "wellness_milestone" proof publicSignals
      if !isValid then Except.error "Generated proof is invalid"
      else Except.ok
        { proof := proof
          publicSignals := publicSignals
          milestoneAchieved := publicSignals.get? 0 == some 1
          achievementHash := publicSignals.get? 1
          consistencyProof := publicSignals.get? 2
          improvementProof := publicSignals.get? 3
          privacyScore := publicSignals.get? 4
          isValid := true
          timestamp := now }

/-- `generateWellnessMilestoneProof`: on cache hit return the cached
proof unchanged; on miss run the `try` block, wrap any thrown error in
`"Failed to generate wellness milestone proof: …"`, and cache a
successful result (the one-hour TTL is wall-clock behaviour outside
the model). Returns the result together with the updated service
state. -/
def generateWellnessMilestoneProof (B : Groth16Backend)
    (svc : AdvancedZKProofService) (now : Nat)
    (privateInputs : WellnessPrivateInputs)
    (publicInputs : WellnessPublicInputs) :
    Except String WellnessZKProof × AdvancedZKProofService :=
  let cacheKey : WellnessCacheKey :=
    ⟨"wellness_milestone", privateInputs, publicInputs⟩
  match svc.proofCache.lookup cacheKey with
  | some cachedProof => (Except.ok cachedProof, svc)
  | none =>
    match generateWellnessInner B svc now privateInputs publicInputs with
    | Except.error e =>
      (Except.error ("Failed to generate wellness milestone proof: " ++ e), svc)
    | Except.ok zkProof =>
      (Except.ok zkProof,
       { svc with proofCache := (cacheKey, zkProof) :: svc.proofCache })

/-- The `try` block of `generatePeerSupportProof`: prove, self-verify,
and return the result object whose `isValid` field records the
verification outcome — the function does not reject an invalid proof. -/
def generatePeerSupportInner (B : Groth16Backend)
    (svc : AdvancedZKProofService) (now : Nat)
    (supporterData : PeerSupportPrivateInputs)
    (requirements : PeerSupportRequirements) :
    Except String PeerSupportZKProof :=
  match svc.circuits.lookup "peer_support" with
  | none => Except.error "Cannot read properties of undefined"
  | some circuit =>
    match B.fullProve (CircuitInputs.peer supporterData requirements) circuit with
    | Except.error e => Except.error e
    | Except.ok (proof, publicSignals) =>
      let isValid := verifyProof B svc "peer_support" proof publicSignals
      Except.ok
        { proof := proof
          publicSignals := publicSignals
          canProvideSupport := publicSignals.get? 0 == some 1
          supportQualityScore := publicSignals.get? 1
          anonymousCredential := publicSignals.get? 2
          isValid := isValid
          timestamp := now }

/-- `generatePeerSupportProof` (no cache): wrap any thrown error in
`"Failed to generate peer support proof: …"`. -/
def generatePeerSupportProof (B : Groth16Backend)
    (svc : AdvancedZKProofService) (now : Nat)
    (supporterData : PeerSupportPrivateInputs)
    (requirements : PeerSupportRequirements) :
    Except String PeerSupportZKProof :=
  match generatePeerSupportInner B svc now supporterData requirements with
  | Except.error e =>
    Except.error ("Failed to generate peer support proof: " ++ e)
  | Except.ok p => Except.ok p

/-! ## Batch dispatch -/

/-- The per-request payload dispatched on `request.type`; a tag not
matching either known circuit is the `switch` default. -/
inductive BatchRequestKind where
  | wellness_milestone (priv : WellnessPrivateInputs) (pub : WellnessPublicInputs)
  | peer_support (priv : PeerSupportPrivateInputs) (req : PeerSupportRequirements)
  | other (typeName : String)
deriving DecidableEq

/-- A `BatchProofRequest`: caller-supplied correlation id plus payload. -/
structure BatchProofRequest where
  requestId : String
  kind : BatchRequestKind
deriving DecidableEq

/-- Either kind of generated proof, for the batch result union. -/
inductive BatchProof where
  | wellness (p : WellnessZKProof)
  | peer (p : PeerSupportZKProof)
deriving DecidableEq, Repr

/-- A `BatchProofResult` entry. -/
structure BatchProofResult where
  requestId : String
  success : Bool
  proof : Option BatchProof
  error : Option String
deriving DecidableEq, Repr

/-- The `switch` inside one batch task: dispatch to the matching
generator or throw `"Unknown proof type: …"`. Each concurrent task
closes over the same initial service state (`Promise.all` fan-out);
cache writes of sibling tasks are not observed. -/
def dispatchProofRequest (B : Groth16Backend)
    (svc : AdvancedZKProofService) (now : Nat) (kind : BatchRequestKind) :
    Except String BatchProof :=
  match kind with
  | BatchRequestKind.wellness_milestone priv pub =>
    match (generateWellnessMilestoneProof B svc now priv pub).1 with
    | Except.ok p => Except.ok (BatchProof.wellness p)
    | Except.error e => Except.error e
  | BatchRequestKind.peer_support priv req =>
    match generatePeerSupportProof B svc now priv req with
    | Except.ok p => Except.ok (BatchProof.peer p)
    | Except.error e => Except.error e
  | BatchRequestKind.other t => Except.error ("Unknown proof type: " ++ t)

/-- One batch task: success shape on a produced proof, failure shape
carrying the caught error message; the request's own `requestId` is
copied into either shape. -/
def processBatchRequest (B : Groth16Backend)
    (svc : AdvancedZKProofService) (now : Nat) (request : BatchProofRequest) :
    BatchProofResult :=
  match dispatchProofRequest B svc now request.kind with
  | Except.ok p =>
    { requestId := request.requestId, success := true
      proof := some p, error := none }
  | Except.error e =>
    { requestId := request.requestId, success := false
      proof := none, error := some e }

/-- `generateBatchProofs`: map every request to its own task and
collect the results in order (`Promise.all`). -/
def generateBatchProofs (B : Groth16Backend)
    (svc : AdvancedZKProofService) (now : Nat)
    (proofRequests : List BatchProofRequest) : List BatchProofResult :=
  proofRequests.map (processBatchRequest B svc now)

/-! ## PrivacyPreservingAnalytics

The external `paillier-bigint` key pair is modelled as an additive
homomorphic scheme record over an abstract ciphertext type `C`:
`encrypt` is `publicKey.encrypt`, `decrypt` is `privateKey.decrypt`,
`add` is `publicKey.addition`. Its correctness laws are a separate
predicate, so that values encrypted under a *different* key (a second
`HEScheme` sharing the ciphertext type) can also be fed to
`aggregateEncryptedMetrics`, exactly as the untyped `bigint`
ciphertexts of the source allow. -/

/-- An additive-homomorphic key pair (one `this.paillier` instance). -/
structure HEScheme (C : Type) where
  encrypt : Int → C
  decrypt : C → Int
  add : C → C → C

/-- Correctness contract of a Paillier key pair: decryption inverts
encryption and is additive over `addition`. -/
def IsHomomorphic {C : Type} (S : HEScheme C) : Prop :=
  (∀ m : Int, S.decrypt (S.encrypt m) = m) ∧
  (∀ a b : C, S.decrypt (S.add a b) = S.decrypt a + S.decrypt b)

/-- Plaintext `UserMentalHealthMetrics` record. -/
structure UserMentalHealthMetrics where
  userId : String
  moodScore : Int
  sessionCount : Int
  engagementTime : Int
  wellnessScore : Int
  crisisEvents : Int
  timestamp : Nat
deriving DecidableEq, Repr

/-- `EncryptedUserMetrics`: per-field ciphertexts; note the record
carries no public key. -/
structure EncryptedUserMetrics (C : Type) where
  userId : String
  encryptedMoodScore : C
  encryptedSessionCount : C
  encryptedEngagementTime : C
  encryptedWellnessScore : C
  encryptedCrisisEvents : C
  timestamp : Nat
deriving DecidableEq, Repr

/-- `encryptUserMetrics`: element-wise encryption of the five metric
fields under the instance's public key. -/
def encryptUserMetrics {C : Type} (S : HEScheme C)
    (metrics : UserMentalHealthMetrics) : EncryptedUserMetrics C :=
  { userId := metrics.userId
    encryptedMoodScore := S.encrypt metrics.moodScore
    encryptedSessionCount := S.encrypt metrics.sessionCount
    encryptedEngagementTime := S.encrypt metrics.engagementTime
    encryptedWellnessScore := S.encrypt metrics.wellnessScore
    encryptedCrisisEvents := S.encrypt metrics.crisisEvents
    timestamp := metrics.timestamp }

/-- `AggregatedMetrics`: averaged fields are exact rationals (the
source divides the decrypted sums by the user count), count fields are
the raw decrypted sums. -/
structure AggregatedMetrics where
  userCount : Nat
  averageMoodScore : ℚ
  totalSessions : Int
  averageEngagementTime : ℚ
  averageWellnessScore : ℚ
  totalCrisisEvents : Int
  aggregationTimestamp : Nat
deriving DecidableEq, Repr

/-- The running ciphertext totals of the aggregation loop. -/
structure EncryptedTotals (C : Type) where
  mood : C
  sessions : C
  engagement : C
  wellness : C
  crisis : C

/-- One iteration of the aggregation loop (`i = 1 …`): homomorphic
addition of entry `i` into each running field total. -/
def aggregateStep {C : Type} (S : HEScheme C) (t : EncryptedTotals C)
    (metric : EncryptedUserMetrics C) : EncryptedTotals C :=
  { mood := S.add t.mood metric.encryptedMoodScore
    sessions := S.add t.sessions metric.encryptedSessionCount
    engagement := S.add t.engagement metric.encryptedEngagementTime
    wellness := S.add t.wellness metric.encryptedWellnessScore
    crisis := S.add t.crisis metric.encryptedCrisisEvents }

/-- A counted decryption call: `privateKey.decrypt` instrumented with
a call counter, so the number of decryptions the pipeline performs is
part of its result. -/
def decryptCounted {C : Type} (S : HEScheme C) (c : C) (k : Nat) :
    Int × Nat :=
  (S.decrypt c, k + 1)

/-- `aggregateEncryptedMetrics`: throws `"No metrics to aggregate"` on
an empty list; otherwise initialises the totals from the first entry,
folds homomorphic addition over the rest (no decryption inside the
loop), then decrypts each of the five field totals once and builds the
result, dividing mood/engagement/wellness by the user count and
reporting sessions/crisis as raw sums. The second component counts the
decrypt calls performed. -/
def aggregateEncryptedMetrics {C : Type} (S : HEScheme C) (now : Nat)
    (encryptedMetrics : List (EncryptedUserMetrics C)) :
    Except String (AggregatedMetrics × Nat) :=
  match encryptedMetrics with
  | [] => Except.error "No metrics to aggregate"
  | first :: rest =>
    let totals := rest.foldl (aggregateStep S)
      { mood := first.encryptedMoodScore
        sessions := first.encryptedSessionCount
        engagement := first.encryptedEngagementTime
        wellness := first.encryptedWellnessScore
        crisis := first.encryptedCrisisEvents }
    let userCount := (first :: rest).length
    let (totalMoodScore, k1) := decryptCounted S totals.mood 0
    let (totalSessions, k2) := decryptCounted S totals.sessions k1
    let (totalEngagement, k3) := decryptCounted S totals.engagement k2
    let (totalWellness, k4) := decryptCounted S totals.wellness k3
    let (totalCrisis, k5) := decryptCounted S totals.crisis k4
    Except.ok
      ({ userCount := userCount
         averageMoodScore := (totalMoodScore : ℚ) / (userCount : ℚ)
         totalSessions := totalSessions
         averageEngagementTime := (totalEngagement : ℚ) / (userCount : ℚ)
         averageWellnessScore := (totalWellness : ℚ) / (userCount : ℚ)
         totalCrisisEvents := totalCrisis
         aggregationTimestamp := now }, k5)

/-! ## Differential privacy release -/

/-- `ConfidenceInterval` record. -/
structure ConfidenceInterval where
  lower : ℚ
  upper : ℚ
  confidence : ℚ
deriving DecidableEq, Repr

/-- `DifferentialPrivateInsights` record. -/
structure DifferentialPrivateInsights where
  noisyAverageMood : ℚ
  noisyAverageWellness : ℚ
  noisyTotalSessions : Int
  noisyCrisisRate : ℚ
  privacyBudgetUsed : ℚ
  confidenceInterval : ConfidenceInterval
  timestamp : Nat
deriving DecidableEq, Repr

/-- `Math.sign`. -/
def mathSign (q : ℚ) : ℚ :=
  if 0 < q then 1 else if q < 0 then -1 else 0

/-- `LaplaceMechanism.sampleLaplace(location, scale)`: the uniform
draw `u = Math.random() - 0.5` and the transcendental `Math.log` are
passed in explicitly. -/
def sampleLaplace (log : ℚ → ℚ) (location scale u : ℚ) : ℚ :=
  location - scale * mathSign u * log (1 - 2 * |u|)

/-- `LaplaceMechanism.addNoise(value)` for privacy parameter
`epsilon`: noise scale is `1 / epsilon`. -/
def addNoise (log : ℚ → ℚ) (epsilon value u : ℚ) : ℚ :=
  value + sampleLaplace log 0 (1 / epsilon) u

/-- `calculateConfidenceInterval(epsilon)`: variance `2 / ε²`,
standard error its square root (`Math.sqrt` passed in explicitly),
bounds `±1.96 ·` standard error at confidence `0.95`. -/
def calculateConfidenceInterval (sqrt : ℚ → ℚ) (epsilon : ℚ) :
    ConfidenceInterval :=
  let variance := 2 / (epsilon * epsilon)
  let standardError := sqrt variance
  { lower := -(196 / 100) * standardError
    upper := (196 / 100) * standardError
    confidence := 95 / 100 }

/-- The four uniform draws consumed by one
`generateDifferentialPrivateInsights` call (one per `addNoise`). -/
structure LaplaceDraws where
  mood : ℚ
  wellness : ℚ
  sessions : ℚ
  crisis : ℚ
deriving DecidableEq, Repr

/-- `generateDifferentialPrivateInsights(aggregatedMetrics, epsilon)`:
adds Laplace noise to each statistic and reports
`privacyBudgetUsed = epsilon`. The function keeps no budget state,
checks no cap, and cannot fail: it is a total function of its
arguments. `Math.round` on the noisy session total is `⌊x + 1/2⌋`. -/
def generateDifferentialPrivateInsights (log sqrt : ℚ → ℚ)
    (aggregatedMetrics : AggregatedMetrics) (epsilon : ℚ)
    (draws : LaplaceDraws) (now : Nat) : DifferentialPrivateInsights :=
  { noisyAverageMood :=
      addNoise log epsilon aggregatedMetrics.averageMoodScore draws.mood
    noisyAverageWellness :=
      addNoise log epsilon aggregatedMetrics.averageWellnessScore draws.wellness
    noisyTotalSessions :=
      round (addNoise log epsilon (aggregatedMetrics.totalSessions : ℚ) draws.sessions)
    noisyCrisisRate :=
      addNoise log epsilon
        ((aggregatedMetrics.totalCrisisEvents : ℚ) /
          (aggregatedMetrics.userCount : ℚ)) draws.crisis
    privacyBudgetUsed := epsilon
    confidenceInterval := calculateConfidenceInterval sqrt epsilon
    timestamp := now }

/-! ## Shared helper lemmas -/

/-- On the circuit's declared 8-bit range, `milestoneAchieved` is the
indicator of the conjunction of the four threshold comparisons. -/
theorem milestoneAchieved_eq (priv : WellnessPrivateInputs)
    (pub : WellnessPublicInputs)
    (h1 : priv.mentalHealthScore < 2 ^ 8) (h2 : priv.sessionCount < 2 ^ 8)
    (h3 : priv.consistencyDays < 2 ^ 8) (h4 : priv.moodImprovementScore < 2 ^ 8)
    (h5 : pub.minWellnessThreshold < 2 ^ 8) (h6 : pub.minSessionRequirement < 2 ^ 8)
    (h7 : pub.minConsistencyDays < 2 ^ 8) (h8 : pub.minImprovementPercent < 2 ^ 8) :
    milestoneAchieved priv pub =
      if pub.minWellnessThreshold ≤ priv.mentalHealthScore ∧
          pub.minSessionRequirement ≤ priv.sessionCount ∧
          pub.minConsistencyDays ≤ priv.consistencyDays ∧
          pub.minImprovementPercent ≤ priv.moodImprovementScore
      then 1 else 0 := by
  simp only [milestoneAchieved, circomAND,
    GreaterEqThan_eq _ _ _ h1 h5, GreaterEqThan_eq _ _ _ h2 h6,
    GreaterEqThan_eq _ _ _ h3 h7, GreaterEqThan_eq _ _ _ h4 h8]
  split_ifs <;> simp_all

/-! ## Claim C4 -/

/-- C4: for fixed private inputs (within the circuit's 8-bit signal
range), raising any of the four public minimum thresholds — stated as
a pointwise increase, which covers raising any single one — never
changes `milestoneAchieved` from `0` to `1`: whenever the output was
`0`, it stays `0`. -/
theorem milestoneAchieved_threshold_monotone
    (priv : WellnessPrivateInputs) (pub pub' : WellnessPublicInputs)
    (h1 : priv.mentalHealthScore < 2 ^ 8) (h2 : priv.sessionCount < 2 ^ 8)
    (h3 : priv.consistencyDays < 2 ^ 8) (h4 : priv.moodImprovementScore < 2 ^ 8)
    (h5 : pub.minWellnessThreshold < 2 ^ 8) (h6 : pub.minSessionRequirement < 2 ^ 8)
    (h7 : pub.minConsistencyDays < 2 ^ 8) (h8 : pub.minImprovementPercent < 2 ^ 8)
    (h5' : pub'.minWellnessThreshold < 2 ^ 8) (h6' : pub'.minSessionRequirement < 2 ^ 8)
    (h7' : pub'.minConsistencyDays < 2 ^ 8) (h8' : pub'.minImprovementPercent < 2 ^ 8)
    (hm1 : pub.minWellnessThreshold ≤ pub'.minWellnessThreshold)
    (hm2 : pub.minSessionRequirement ≤ pub'.minSessionRequirement)
    (hm3 : pub.minConsistencyDays ≤ pub'.minConsistencyDays)
    (hm4 : pub.minImprovementPercent ≤ pub'.minImprovementPercent)
    (h0 : milestoneAchieved priv pub = 0) :
    milestoneAchieved priv pub' = 0 := by
  rw [milestoneAchieved_eq priv pub h1 h2 h3 h4 h5 h6 h7 h8] at h0
  rw [milestoneAchieved_eq priv pub' h1 h2 h3 h4 h5' h6' h7' h8']
  split_ifs at h0 ⊢ <;> omega

/-- Witness for C4: score 70 misses threshold 80, so `achieved = 0`;
raising the wellness threshold to 90 keeps it `0`. -/
theorem milestoneAchieved_threshold_monotone_witness :
    milestoneAchieved ⟨70, 12, 40, 30, 0, [], []⟩ ⟨90, 10, 30, 20, 1, 0⟩ = 0 :=
  milestoneAchieved_threshold_monotone
    ⟨70, 12, 40, 30, 0, [], []⟩ ⟨80, 10, 30, 20, 1, 0⟩ ⟨90, 10, 30, 20, 1, 0⟩
    (by decide) (by decide) (by decide) (by decide)
    (by decide) (by decide) (by decide) (by decide)
    (by decide) (by decide) (by decide) (by decide)
    (by decide) (by decide) (by decide) (by decide)
    (by decide)

/-! ## Claim C5 -/

/-- C5: `milestoneAchieved` is the logical AND of the four `≥`
comparisons (on the circuit's 8-bit range), and on Scenario A inputs —
score 85, sessions 12, consistency 40, improvement 30 against
thresholds (80, 10, 30, 20) — it is `1`, while lowering the score to
70 makes it `0`. -/
theorem milestoneAchieved_and_and_scenarioA :
    (∀ (priv : WellnessPrivateInputs) (pub : WellnessPublicInputs),
      priv.mentalHealthScore < 2 ^ 8 → priv.sessionCount < 2 ^ 8 →
      priv.consistencyDays < 2 ^ 8 → priv.moodImprovementScore < 2 ^ 8 →
      pub.minWellnessThreshold < 2 ^ 8 → pub.minSessionRequirement < 2 ^ 8 →
      pub.minConsistencyDays < 2 ^ 8 → pub.minImprovementPercent < 2 ^ 8 →
      milestoneAchieved priv pub =
        if pub.minWellnessThreshold ≤ priv.mentalHealthScore ∧
            pub.minSessionRequirement ≤ priv.sessionCount ∧
            pub.minConsistencyDays ≤ priv.consistencyDays ∧
            pub.minImprovementPercent ≤ priv.moodImprovementScore
        then 1 else 0) ∧
    milestoneAchieved ⟨85, 12, 40, 30, 0, [], []⟩ ⟨80, 10, 30, 20, 1, 0⟩ = 1 ∧
    milestoneAchieved ⟨70, 12, 40, 30, 0, [], []⟩ ⟨80, 10, 30, 20, 1, 0⟩ = 0 :=
  ⟨fun priv pub h1 h2 h3 h4 h5 h6 h7 h8 =>
    milestoneAchieved_eq priv pub h1 h2 h3 h4 h5 h6 h7 h8,
   by decide, by decide⟩

/-- Witness for C5: the general conjunct applied to the Scenario A
inputs. -/
theorem milestoneAchieved_and_and_scenarioA_witness :
    milestoneAchieved ⟨85, 12, 40, 30, 0, [], []⟩ ⟨80, 10, 30, 20, 1, 0⟩ =
      if (80 ≤ 85 ∧ 10 ≤ 12 ∧ 30 ≤ 40 ∧ 20 ≤ 30 : Prop) then 1 else 0 :=
  milestoneAchieved_and_and_scenarioA.1
    ⟨85, 12, 40, 30, 0, [], []⟩ ⟨80, 10, 30, 20, 1, 0⟩
    (by decide) (by decide) (by decide) (by decide)
    (by decide) (by decide) (by decide) (by decide)

/-! ## Claim C8 -/

/-- C8: for a 20-entry interaction history with at least one strictly
positive entry, `SupportQualityCalculator` returns the sum of the
strictly positive entries divided by their count (zero and negative
entries excluded from numerator and denominator); when every entry is
non-positive the computation fails (`none`) instead of dividing by
zero. -/
theorem supportQuality_average_of_positives (history : List Int)
    (hlen : history.length = 20) :
    ((∃ x ∈ history, 0 < x) →
      SupportQualityCalculator history =
        some (((history.filter (fun x => 0 < x)).sum : ℚ) /
          ((history.filter (fun x => 0 < x)).length : ℚ))) ∧
    ((∀ x ∈ history, x ≤ 0) → SupportQualityCalculator history = none) := by
  constructor
  · rintro ⟨x, hxm, hxp⟩
    have hmem : x ∈ history.filter (fun y => 0 < y) :=
      List.mem_filter.mpr ⟨hxm, by simpa using hxp⟩
    have hne : (history.filter (fun y => 0 < y)).length ≠ 0 := by
      intro hzero
      rw [List.length_eq_zero] at hzero
      rw [hzero] at hmem
      exact absurd hmem (List.not_mem_nil x)
    simp only [SupportQualityCalculator, supportQualityLoop_eq]
    rw [if_neg hne]
  · intro hall
    have hnil : history.filter (fun y => 0 < y) = [] := by
      rw [List.filter_eq_nil_iff]
      intro a ha
      simpa using not_lt.mpr (hall a ha)
    simp only [SupportQualityCalculator, supportQualityLoop_eq, hnil]
    rfl

/-- Witness for C8: a concrete 20-entry history with positive entries
5 and 7 averages to 6. -/
theorem supportQuality_average_of_positives_witness :
    SupportQualityCalculator ([5, -3, 0, 7] ++ List.replicate 16 0) =
      some (((([5, -3, 0, 7] ++ List.replicate 16 0).filter (fun x => 0 < x)).sum : ℚ) /
        ((([5, -3, 0, 7] ++ List.replicate 16 0).filter (fun x => 0 < x)).length : ℚ)) :=
  (supportQuality_average_of_positives ([5, -3, 0, 7] ++ List.replicate 16 0)
    (by decide)).1 ⟨5, by decide, by decide⟩

/-! ## Aggregation helper lemmas and toy Paillier instances -/

instance {ε α : Type} [DecidableEq ε] [DecidableEq α] :
    DecidableEq (Except ε α) := fun x y =>
  match x, y with
  | Except.ok a, Except.ok b =>
    if h : a = b then isTrue (by rw [h])
    else isFalse (fun hc => h (Except.ok.inj hc))
  | Except.error a, Except.error b =>
    if h : a = b then isTrue (by rw [h])
    else isFalse (fun hc => h (Except.error.inj hc))
  | Except.ok _, Except.error _ => isFalse (fun hc => Except.noConfusion hc)
  | Except.error _, Except.ok _ => isFalse (fun hc => Except.noConfusion hc)

/-- Projecting the aggregation loop onto one field turns the
`aggregateStep` fold into a single-field homomorphic-addition fold. -/
theorem foldl_aggregateStep_proj {C : Type} (S : HEScheme C)
    (p : EncryptedTotals C → C) (q : EncryptedUserMetrics C → C)
    (hp : ∀ t m, p (aggregateStep S t m) = S.add (p t) (q m)) :
    ∀ (l : List (EncryptedUserMetrics C)) (t : EncryptedTotals C),
      p (l.foldl (aggregateStep S) t) =
        l.foldl (fun c m => S.add c (q m)) (p t) := by
  intro l
  induction l with
  | nil => intro t; rfl
  | cons m ms ih =>
    intro t
    rw [List.foldl_cons, List.foldl_cons, ih, hp]

/-- Decrypting a homomorphic-addition fold yields the initial
plaintext plus the sum of the decrypted summands. -/
theorem decrypt_foldl_add {C : Type} (S : HEScheme C)
    (hadd : ∀ a b : C, S.decrypt (S.add a b) = S.decrypt a + S.decrypt b)
    (q : EncryptedUserMetrics C → C) :
    ∀ (l : List (EncryptedUserMetrics C)) (c : C),
      S.decrypt (l.foldl (fun c m => S.add c (q m)) c) =
        S.decrypt c + (l.map (fun m => S.decrypt (q m))).sum := by
  intro l
  induction l with
  | nil => intro c; simp
  | cons m ms ih =>
    intro c
    rw [List.foldl_cons, ih, hadd]
    simp [add_assoc]

/-- A family of toy Paillier key pairs over `Int` ciphertexts, indexed
by the key `k`: encryption multiplies by `k`, decryption divides by
`k`. Distinct keys produce mutually incompatible ciphertexts, just as
distinct Paillier moduli do; `scaleScheme 1` is an honest
additive-homomorphic scheme used to instantiate the external
`paillier-bigint` key pair in concrete evaluations. -/
def scaleScheme (k : Int) : HEScheme Int :=
  { encrypt := fun m => m * k
    decrypt := fun c => c / k
    add := fun a b => a + b }

theorem scaleScheme_one_hom : IsHomomorphic (scaleScheme 1) := by
  constructor
  · intro m; simp [scaleScheme]
  · intro a b; simp [scaleScheme]

/-! ## Claim C3 -/

/-- C3: encrypting a non-empty list of plaintext metric vectors
element-wise, aggregating, and decrypting recovers the exact plaintext
field sums, with exactly 5 decrypt calls — one per field, regardless
of the number of inputs — and with mood/engagement/wellness divided by
the user count while sessions/crisis-events are raw sums. -/
theorem aggregate_encrypt_exact {C : Type} (S : HEScheme C)
    (hS : IsHomomorphic S) (now : Nat)
    (users : List UserMentalHealthMetrics) (hne : users ≠ []) :
    aggregateEncryptedMetrics S now (users.map (encryptUserMetrics S)) =
      Except.ok
        ({ userCount := users.length
           averageMoodScore :=
             ((users.map (fun u => u.moodScore)).sum : ℚ) / (users.length : ℚ)
           totalSessions := (users.map (fun u => u.sessionCount)).sum
           averageEngagementTime :=
             ((users.map (fun u => u.engagementTime)).sum : ℚ) / (users.length : ℚ)
           averageWellnessScore :=
             ((users.map (fun u => u.wellnessScore)).sum : ℚ) / (users.length : ℚ)
           totalCrisisEvents := (users.map (fun u => u.crisisEvents)).sum
           aggregationTimestamp := now }, 5) := by
  obtain ⟨hdec, hadd⟩ := hS
  match users with
  | [] => exact absurd rfl hne
  | u :: us =>
    have hmood := foldl_aggregateStep_proj S (fun t => t.mood)
      (fun m => m.encryptedMoodScore) (fun _ _ => rfl) (us.map (encryptUserMetrics S))
    have hsess := foldl_aggregateStep_proj S (fun t => t.sessions)
      (fun m => m.encryptedSessionCount) (fun _ _ => rfl) (us.map (encryptUserMetrics S))
    have heng := foldl_aggregateStep_proj S (fun t => t.engagement)
      (fun m => m.encryptedEngagementTime) (fun _ _ => rfl) (us.map (encryptUserMetrics S))
    have hwell := foldl_aggregateStep_proj S (fun t => t.wellness)
      (fun m => m.encryptedWellnessScore) (fun _ _ => rfl) (us.map (encryptUserMetrics S))
    have hcri := foldl_aggregateStep_proj S (fun t => t.crisis)
      (fun m => m.encryptedCrisisEvents) (fun _ _ => rfl) (us.map (encryptUserMetrics S))
    simp only [List.map_cons, aggregateEncryptedMetrics, decryptCounted,
      hmood, hsess, heng, hwell, hcri, decrypt_foldl_add S hadd,
      encryptUserMetrics, hdec, List.map_map, Except.ok.injEq, Prod.mk.injEq,
      AggregatedMetrics.mk.injEq, List.length_cons, List.length_map]
    simp [Function.comp_def, encryptUserMetrics, hdec]

/-- Witness for C3: Scenario B's three mood vectors (60, 80, 100)
aggregate to an exact average mood of 80 with 5 decryptions. -/
theorem aggregate_encrypt_exact_witness :
    aggregateEncryptedMetrics (scaleScheme 1) 7
      ([⟨"u1", 60, 1, 10, 40, 0, 0⟩, ⟨"u2", 80, 2, 20, 50, 1, 0⟩,
        ⟨"u3", 100, 3, 30, 60, 0, 0⟩].map (encryptUserMetrics (scaleScheme 1))) =
      Except.ok
        ({ userCount := 3
           averageMoodScore := 80
           totalSessions := 6
           averageEngagementTime := 20
           averageWellnessScore := 50
           totalCrisisEvents := 1
           aggregationTimestamp := 7 }, 5) := by
  rw [aggregate_encrypt_exact (scaleScheme 1) scaleScheme_one_hom 7
    [⟨"u1", 60, 1, 10, 40, 0, 0⟩, ⟨"u2", 80, 2, 20, 50, 1, 0⟩,
     ⟨"u3", 100, 3, 30, 60, 0, 0⟩] (by simp)]
  simp only [List.map_cons, List.map_nil, List.sum_cons, List.sum_nil,
    List.length_cons, List.length_nil, Except.ok.injEq, Prod.mk.injEq,
    AggregatedMetrics.mk.injEq]
  norm_num

/-! ## Claim C7 -/

/-- C7: aggregation of an empty list fails with the empty-input error
(`"No metrics to aggregate"`), returning no zero or partial result. -/
theorem aggregate_empty_fails {C : Type} (S : HEScheme C) (now : Nat) :
    aggregateEncryptedMetrics S now ([] : List (EncryptedUserMetrics C)) =
      Except.error "No metrics to aggregate" := rfl

/-! ## Claim C9 -/

/-- C9 counterexample: ciphertexts produced under two different keys
(`scaleScheme 1` and `scaleScheme 2`) are aggregated without any
key-consistency check. The call returns an ordinary `Except.ok`
result — not a `KeyMismatchError` — and the "total" session count 11
differs silently from the true plaintext sum 3 + 4 = 7, refuting the
claim that such input fails fast. -/
theorem aggregate_mixed_keys_silently_wrong :
    aggregateEncryptedMetrics (scaleScheme 1) 0
      [encryptUserMetrics (scaleScheme 1) ⟨"u1", 10, 3, 5, 50, 1, 0⟩,
       encryptUserMetrics (scaleScheme 2) ⟨"u2", 20, 4, 6, 60, 0, 0⟩] =
      Except.ok
        ({ userCount := 2
           averageMoodScore := 25
           totalSessions := 11
           averageEngagementTime := 17 / 2
           averageWellnessScore := 85
           totalCrisisEvents := 1
           aggregationTimestamp := 0 }, 5) ∧
    (11 : Int) ≠ 3 + 4 := by
  constructor
  · simp only [aggregateEncryptedMetrics, encryptUserMetrics, scaleScheme,
      aggregateStep, decryptCounted, List.foldl_cons, List.foldl_nil,
      List.length_cons, List.length_nil, Except.ok.injEq, Prod.mk.injEq,
      AggregatedMetrics.mk.injEq]
    norm_num
  · decide

/-- C9 amended: `aggregateEncryptedMetrics` performs no
key-consistency check at all — `EncryptedUserMetrics` carries no
public key, and every non-empty input list (whatever keys produced its
ciphertexts) yields an `Except.ok` aggregate. -/
theorem aggregate_no_key_check {C : Type} (S : HEScheme C) (now : Nat)
    (encryptedMetrics : List (EncryptedUserMetrics C))
    (hne : encryptedMetrics ≠ []) :
    ∃ r, aggregateEncryptedMetrics S now encryptedMetrics = Except.ok r := by
  match encryptedMetrics with
  | [] => exact absurd rfl hne
  | m :: ms => exact ⟨_, rfl⟩

/-- Witness for the amended C9: the mixed-key list from the
counterexample indeed aggregates to an `ok` result. -/
theorem aggregate_no_key_check_witness :
    ∃ r, aggregateEncryptedMetrics (scaleScheme 1) 0
      [encryptUserMetrics (scaleScheme 1) ⟨"u1", 10, 3, 5, 50, 1, 0⟩,
       encryptUserMetrics (scaleScheme 2) ⟨"u2", 20, 4, 6, 60, 0, 0⟩] =
        Except.ok r :=
  aggregate_no_key_check (scaleScheme 1) 0
    [encryptUserMetrics (scaleScheme 1) ⟨"u1", 10, 3, 5, 50, 1, 0⟩,
     encryptUserMetrics (scaleScheme 2) ⟨"u2", 20, 4, 6, 60, 0, 0⟩]
    (by simp)

/-! ## Claim C2 -/

/-- C2 counterexample: against a nominal budget cap of 1.0, two
releases of ε = 0.6 each both succeed — the release path cannot fail,
there is no `BudgetExceededError` — so the cumulative ε consumed,
1.2, exceeds the cap, refuting the claimed `spent ≤ cap` enforcement. -/
theorem release_exceeds_cap_counterexample :
    (generateDifferentialPrivateInsights (fun _ => 0) (fun _ => 0)
        ⟨3, 80, 6, 20, 50, 1, 0⟩ (3 / 5) ⟨0, 0, 0, 0⟩ 0).privacyBudgetUsed +
      (generateDifferentialPrivateInsights (fun _ => 0) (fun _ => 0)
        ⟨3, 80, 6, 20, 50, 1, 0⟩ (3 / 5) ⟨0, 0, 0, 0⟩ 1).privacyBudgetUsed =
      6 / 5 ∧ (1 : ℚ) < 6 / 5 := by
  constructor
  · norm_num [generateDifferentialPrivateInsights]
  · norm_num

/-- C2 amended: the release path keeps no `PrivacyBudget` state and
enforces no cap: `generateDifferentialPrivateInsights` is a total
function that always returns an insight whose `privacyBudgetUsed`
field merely reports the requested ε, independently of any previous
releases. -/
theorem release_reports_epsilon_unconditionally (log sqrt : ℚ → ℚ)
    (aggregatedMetrics : AggregatedMetrics) (epsilon : ℚ)
    (draws : LaplaceDraws) (now : Nat) :
    (generateDifferentialPrivateInsights log sqrt aggregatedMetrics
      epsilon draws now).privacyBudgetUsed = epsilon := rfl

/-! ## Concrete service fixtures

A service instance with both circuits loaded, plus two concrete
snarkjs backends: one whose pairing check rejects every proof and one
that accepts every proof. -/

/-- Service state with `wellness_milestone` and `peer_support` loaded
and an empty cache. -/
def svcBoth : AdvancedZKProofService :=
  { circuits := [("wellness_milestone", ⟨1, 1⟩), ("peer_support", ⟨2, 2⟩)]
    verificationKeys := [("wellness_milestone", 10), ("peer_support", 20)]
    proofCache := [] }

/-- A backend whose prover succeeds but whose pairing check returns
`false` — the key/circuit-mismatch situation the spec calls a fatal
integrity fault. -/
def badBackend : Groth16Backend :=
  { fullProve := fun _ _ => Except.ok (⟨1, 2, 3⟩, [0, 77, 88])
    verify := fun _ _ _ => Except.ok false }

/-- A backend whose prover succeeds and whose pairing check accepts. -/
def goodBackend : Groth16Backend :=
  { fullProve := fun _ _ => Except.ok (⟨1, 2, 3⟩, [1, 11, 22, 33, 4])
    verify := fun _ _ _ => Except.ok true }

/-- Concrete peer-support private inputs. -/
def demoPeerPriv : PeerSupportPrivateInputs := ⟨3, 70, [1, 2, 3], 9⟩

/-- Concrete peer-support requirements. -/
def demoPeerReq : PeerSupportRequirements := ⟨2, 60, 1⟩

/-- Concrete wellness private inputs (Scenario A). -/
def demoWellPriv : WellnessPrivateInputs := ⟨85, 12, 40, 30, 0, [], []⟩

/-- Concrete wellness public inputs (Scenario A thresholds). -/
def demoWellPub : WellnessPublicInputs := ⟨80, 10, 30, 20, 1, 0⟩

/-! ## Claim C1 -/

/-- C1 counterexample: under a backend whose pairing check rejects the
freshly generated proof, `generatePeerSupportProof` still returns the
proof to the caller — with `isValid = false` — instead of aborting
with an error, refuting the claim for the peer-support generation
path. -/
theorem peer_proof_returned_despite_failed_selfverify :
    generatePeerSupportProof badBackend svcBoth 0 demoPeerPriv demoPeerReq =
      Except.ok
        { proof := ⟨1, 2, 3⟩
          publicSignals := [0, 77, 88]
          canProvideSupport := false
          supportQualityScore := some 77
          anonymousCredential := some 88
          isValid := false
          timestamp := 0 } ∧
    verifyProof badBackend svcBoth "peer_support" ⟨1, 2, 3⟩ [0, 77, 88] = false :=
  ⟨rfl, rfl⟩

/-- C1 amended: on a cache miss, `generateWellnessMilestoneProof`
returns a proof only if it passed self-verification (otherwise it
aborts with an error), while `generatePeerSupportProof` always returns
the generated proof and merely records the self-verification outcome
in its `isValid` field. -/
theorem generate_selfverify_policy :
    (∀ (B : Groth16Backend) (svc : AdvancedZKProofService) (now : Nat)
        (priv : WellnessPrivateInputs) (pub : WellnessPublicInputs),
      svc.proofCache.lookup ⟨"wellness_milestone", priv, pub⟩ = none →
      ∀ p, (generateWellnessMilestoneProof B svc now priv pub).1 = Except.ok p →
        verifyProof B svc "wellness_milestone" p.proof p.publicSignals = true ∧
        p.isValid = true) ∧
    (∀ (B : Groth16Backend) (svc : AdvancedZKProofService) (now : Nat)
        (priv : PeerSupportPrivateInputs) (req : PeerSupportRequirements)
        (p : PeerSupportZKProof),
      generatePeerSupportProof B svc now priv req = Except.ok p →
        p.isValid = verifyProof B svc "peer_support" p.proof p.publicSignals) := by
  constructor
  · intro B svc now priv pub hmiss p hp
    unfold generateWellnessMilestoneProof at hp
    simp only [hmiss] at hp
    cases hInner : generateWellnessInner B svc now priv pub with
    | error e => simp only [hInner] at hp; exact Except.noConfusion hp
    | ok zk =>
      simp only [hInner] at hp
      obtain rfl : zk = p := Except.ok.inj hp
      unfold generateWellnessInner at hInner
      cases hc : svc.circuits.lookup "wellness_milestone" with
      | none => simp only [hc] at hInner; exact Except.noConfusion hInner
      | some circuit =>
        simp only [hc] at hInner
        cases hfp : B.fullProve (CircuitInputs.wellness priv pub) circuit with
        | error e => simp only [hfp] at hInner; exact Except.noConfusion hInner
        | ok pr =>
          obtain ⟨proofd, sigs⟩ := pr
          simp only [hfp] at hInner
          by_cases hv :
            verifyProof B svc "wellness_milestone" proofd sigs = true
          · simp only [hv] at hInner
            simp only [Bool.not_true, Bool.false_eq_true, if_false] at hInner
            obtain rfl := Except.ok.inj hInner
            exact ⟨hv, rfl⟩
          · rw [Bool.not_eq_true] at hv
            simp only [hv, Bool.not_false, if_true] at hInner
            exact Except.noConfusion hInner
  · intro B svc now priv req p hp
    unfold generatePeerSupportProof at hp
    cases hInner : generatePeerSupportInner B svc now priv req with
    | error e => simp only [hInner] at hp; exact Except.noConfusion hp
    | ok zk =>
      simp only [hInner] at hp
      obtain rfl : zk = p := Except.ok.inj hp
      unfold generatePeerSupportInner at hInner
      cases hc : svc.circuits.lookup "peer_support" with
      | none => simp only [hc] at hInner; exact Except.noConfusion hInner
      | some circuit =>
        simp only [hc] at hInner
        cases hfp : B.fullProve (CircuitInputs.peer priv req) circuit with
        | error e => simp only [hfp] at hInner; exact Except.noConfusion hInner
        | ok pr =>
          obtain ⟨proofd, sigs⟩ := pr
          simp only [hfp] at hInner
          obtain rfl := Except.ok.inj hInner
          rfl

/-- Witness for the amended C1: with an accepting backend, the
wellness generation returns a proof that did pass self-verification
and carries `isValid = true`. -/
theorem generate_selfverify_policy_witness :
    verifyProof goodBackend svcBoth "wellness_milestone" ⟨1, 2, 3⟩
      [1, 11, 22, 33, 4] = true ∧
    ({ proof := ⟨1, 2, 3⟩
       publicSignals := [1, 11, 22, 33, 4]
       milestoneAchieved := true
       achievementHash := some 11
       consistencyProof := some 22
       improvementProof := some 33
       privacyScore := some 4
       isValid := true
       timestamp := 0 } : WellnessZKProof).isValid = true :=
  generate_selfverify_policy.1 goodBackend svcBoth 0 demoWellPriv demoWellPub
    rfl
    { proof := ⟨1, 2, 3⟩
      publicSignals := [1, 11, 22, 33, 4]
      milestoneAchieved := true
      achievementHash := some 11
      consistencyProof := some 22
      improvementProof := some 33
      privacyScore := some 4
      isValid := true
      timestamp := 0 }
    rfl

/-! ## Claim C6 -/

/-- C6 counterexample: for an unknown circuit id the internal lookup
does throw, but `verifyProof`'s catch converts it into a `false`
return — the function yields a boolean instead of failing, refuting
the claim that it fails for unknown circuit ids. -/
theorem verifyProof_unknown_circuit_returns_false :
    verifyProof badBackend svcBoth "mood_privacy_v2" ⟨1, 2, 3⟩ [0] = false ∧
    verifyProofInner badBackend svcBoth "mood_privacy_v2" ⟨1, 2, 3⟩ [0] =
      Except.error "Verification key not found for circuit: mood_privacy_v2" :=
  ⟨rfl, rfl⟩

/-- C6 amended: `verifyProof` never throws: it returns `true` exactly
when the circuit's verification key is loaded and the pairing check
accepts, and returns `false` in every other case — including a
well-formed but invalid proof, a backend-thrown error, and an unknown
circuit id. -/
theorem verifyProof_never_throws (B : Groth16Backend)
    (svc : AdvancedZKProofService) (circuitName : String)
    (proof : Groth16Proof) (publicSignals : List Nat) :
    (verifyProof B svc circuitName proof publicSignals = true ↔
      (∃ vKey, svc.verificationKeys.lookup circuitName = some vKey ∧
        B.verify vKey publicSignals proof = Except.ok true)) ∧
    (svc.verificationKeys.lookup circuitName = none →
      verifyProof B svc circuitName proof publicSignals = false) := by
  unfold verifyProof verifyProofInner
  cases hk : svc.verificationKeys.lookup circuitName with
  | none => simp
  | some vKey =>
    cases hv : B.verify vKey publicSignals proof with
    | error e => simp [hv]
    | ok b => cases b <;> simp [hv]

/-- Witness for the amended C6: a circuit id with no loaded key yields
`false`, not a failure. -/
theorem verifyProof_never_throws_witness :
    verifyProof badBackend svcBoth "mood_privacy" ⟨1, 2, 3⟩ [] = false :=
  (verifyProof_never_throws badBackend svcBoth "mood_privacy" ⟨1, 2, 3⟩ []).2 rfl

/-! ## Claim C10 -/

/-- C10: batch dispatch processes every request independently — the
result list is the per-request map of a single-request task, so the
`i`-th result depends only on the `i`-th request — the caller-supplied
correlation ids are preserved in order, a failed request's error
message is captured in that request's own result, and a successful
sibling still yields its own success result. -/
theorem generateBatchProofs_spec (B : Groth16Backend)
    (svc : AdvancedZKProofService) (now : Nat)
    (requests : List BatchProofRequest) :
    ((generateBatchProofs B svc now requests).map (fun r => r.requestId) =
      requests.map (fun r => r.requestId)) ∧
    (∀ (i : Nat) (h : i < requests.length),
      (generateBatchProofs B svc now requests).get
          ⟨i, by simpa [generateBatchProofs] using h⟩ =
        processBatchRequest B svc now (requests.get ⟨i, h⟩)) ∧
    (∀ (r : BatchProofRequest) (e : String),
      dispatchProofRequest B svc now r.kind = Except.error e →
      processBatchRequest B svc now r =
        { requestId := r.requestId, success := false
          proof := none, error := some e }) ∧
    (∀ (r : BatchProofRequest) (p : BatchProof),
      dispatchProofRequest B svc now r.kind = Except.ok p →
      processBatchRequest B svc now r =
        { requestId := r.requestId, success := true
          proof := some p, error := none }) := by
  have hid : ∀ r, (processBatchRequest B svc now r).requestId = r.requestId := by
    intro r
    unfold processBatchRequest
    cases dispatchProofRequest B svc now r.kind <;> rfl
  refine ⟨?_, ?_, ?_, ?_⟩
  · simp [generateBatchProofs, List.map_map, Function.comp_def, hid]
  · intro i h
    simp [generateBatchProofs, List.get_map]
  · intro r e he
    unfold processBatchRequest
    rw [he]
  · intro r p hp
    unfold processBatchRequest
    rw [hp]

/-- Witness for C10: a request whose type tag matches no circuit fails
alone, with the thrown message captured in its own result entry. -/
theorem generateBatchProofs_spec_witness :
    processBatchRequest badBackend svcBoth 0
      ⟨"req-2", BatchRequestKind.other "bogus"⟩ =
      { requestId := "req-2", success := false, proof := none
        error := some ("Unknown proof type: " ++ "bogus") } :=
  (generateBatchProofs_spec badBackend svcBoth 0 []).2.2.1
    ⟨"req-2", BatchRequestKind.other "bogus"⟩
    ("Unknown proof type: " ++ "bogus") rfl

end MindBridge
